import Mathlib

/-!
Verification development for the Vibelets LangGraph ad-campaign workflow.

The repository contains the frontend (TypeScript) and the documentation of a
LangGraph-based workflow backend.  The backend engine itself
(`state_schema.py`, `workflow_graph.py`, `server_langgraph.py`) is not part of
the source tree available here, so the engine is modelled from the
specification (each such definition carries a doc comment starting
`Modelled from the spec:`), while the frontend pieces (the `WorkflowAPI`
client and the `ScriptSelection` component) are embedded directly from their
TypeScript source.
-/

namespace Vibelets

/-- The fixed step identifiers of the pipeline, in pipeline order
(spec section 4.2, matching the `WorkflowStep` union in
`WorkflowChatInterface.tsx`). -/
inductive Step where
  | scrape
  | analyze
  | generate_scripts
  | select_script
  | refine_script
  | generate_images
  | refine_images
  | generate_audio
  | select_avatar
  | generate_video
deriving DecidableEq, Repr

/-- The nullable payload fields that occur in the prerequisite table
(spec section 4.2). -/
inductive Field where
  | product_data
  | analysis
  | scripts
  | selected_script
  | generated_images
  | audio
  | selected_avatar
deriving DecidableEq, Repr

/-- One chat message, as in the `messages` field of `WorkflowState`
(`src/unnamed/part_000`, lines 13). -/
structure Message where
  role : String
  content : String
deriving DecidableEq, Repr

/-- Modelled from the spec: the `WorkflowState` record of section 3, with the
field names of the `WorkflowState` TypeScript interface in
`src/unnamed/part_000`.  Opaque payloads (product data, analysis, audio,
video, avatars) are modelled as strings; `iteration_count` is a total map
from steps to counts, where the count 0 plays the role of an absent key
(spec: absent key means the step never executed). -/
structure WorkflowState where
  current_step : Step
  navigation_intent : Option String
  messages : List Message
  url : Option String
  product_data : Option String
  analysis : Option String
  analysis_feedback : List String
  scripts : Option (List String)
  script_feedback : List String
  selected_script_index : Option Nat
  selected_script : Option String
  script_refinement_feedback : List String
  generated_images : Option (List String)
  image_feedback : List String
  audio_url : Option String
  available_avatars : Option (List String)
  selected_avatar_id : Option String
  video_url : Option String
  error : Option String
  iteration_count : Step → Nat

/-- Modelled from the spec: the fresh state of a newly created session
(spec section 3, lifecycle: lazy init with `current_step = scrape`, every
payload field null, histories empty, no executions yet). -/
def initialState : WorkflowState where
  current_step := Step.scrape
  navigation_intent := none
  messages := []
  url := none
  product_data := none
  analysis := none
  analysis_feedback := []
  scripts := none
  script_feedback := []
  selected_script_index := none
  selected_script := none
  script_refinement_feedback := []
  generated_images := none
  image_feedback := []
  audio_url := none
  available_avatars := none
  selected_avatar_id := none
  video_url := none
  error := none
  iteration_count := fun _ => 0

/-- Whether a nullable payload field is currently set (non-null) in a state. -/
def fieldSet (st : WorkflowState) : Field → Bool
  | Field.product_data => st.product_data.isSome
  | Field.analysis => st.analysis.isSome
  | Field.scripts => st.scripts.isSome
  | Field.selected_script => st.selected_script.isSome
  | Field.generated_images => st.generated_images.isSome
  | Field.audio => st.audio_url.isSome
  | Field.selected_avatar => st.selected_avatar_id.isSome

/-- Modelled from the spec: the prerequisite table of section 4.2
(fields required to be set before a step may run or be navigated to). -/
def requiredFields : Step → List Field
  | Step.scrape => []
  | Step.analyze => [Field.product_data]
  | Step.generate_scripts => [Field.product_data, Field.analysis]
  | Step.select_script => [Field.scripts]
  | Step.refine_script => [Field.selected_script]
  | Step.generate_images => [Field.selected_script]
  | Step.refine_images => [Field.generated_images]
  | Step.generate_audio => [Field.selected_script]
  | Step.select_avatar => [Field.audio]
  | Step.generate_video => [Field.selected_avatar, Field.audio]

/-- The prerequisite fields of a step that are not set in the given state. -/
def missingFields (st : WorkflowState) (step : Step) : List Field :=
  (requiredFields step).filter (fun f => !(fieldSet st f))

/-- A step's prerequisite is satisfied when none of its required fields
is missing. -/
def prereqOk (st : WorkflowState) (step : Step) : Bool :=
  (missingFields st step).isEmpty

/-- Modelled from the spec: the typed error kinds of section 7. -/
inductive WorkflowError where
  | notFound
  | stepNotReady (step : Step) (missing : List Field)
  | ambiguousNavigation (text : String)
  | prerequisiteNotMet (target : Step) (missing : List Field)
  | sessionBusy
  | collaboratorFailure (collaborator : String) (msg : String)
  | validationError (msg : String)
deriving DecidableEq, Repr

/-- The caller-supplied input of one step execution: nothing, free-text
feedback, the url for `scrape`, the index for `select_script`, or the
avatar id for `select_avatar` (spec section 6 boundary operations). -/
inductive StepInput where
  | noInput
  | feedback (text : String)
  | scrapeUrl (u : String)
  | scriptIndex (i : Nat)
  | avatarId (a : String)
deriving DecidableEq, Repr

/-- The feedback text carried by a step input, if any. -/
def StepInput.feedbackText : StepInput → Option String
  | StepInput.feedback t => some t
  | _ => none

/-- Modelled from the spec: the external collaborator interfaces of
section 6, each a single call returning a typed result or a failure
message.  Opaque payloads are strings. -/
structure CollabEnv where
  scrapeProduct : String → Except String String
  analyzeProduct : String → List String → Option String → Except String String
  generateScripts : String → String → List String → Option String → Except String (List String)
  refineScript : String → String → Except String String
  generateImages : String → String → Option String → Except String (List String)
  synthesizeAudio : String → Except String String
  listAvatars : Unit → Except String (List String)
  renderVideo : String → String → Except String String

/-- The result of one orchestrator operation on a session: either the new
state, or a typed error together with the state as persisted (unchanged for
pre-invocation failures; carrying the recorded `error` field for
collaborator failures, per spec section 7). -/
inductive StepResult where
  | ok (st : WorkflowState)
  | err (e : WorkflowError) (st : WorkflowState)

/-- The revisable steps keep one ordered feedback history each
(spec section 3: analysis, script, script-refinement, image). -/
def revisable : Step → Bool
  | Step.analyze => true
  | Step.generate_scripts => true
  | Step.refine_script => true
  | Step.generate_images => true
  | Step.refine_images => true
  | _ => false

/-- The feedback history owned by a step (empty for non-revisable steps);
`refine_images` shares the image feedback history with `generate_images`. -/
def historyOf (st : WorkflowState) : Step → List String
  | Step.analyze => st.analysis_feedback
  | Step.generate_scripts => st.script_feedback
  | Step.refine_script => st.script_refinement_feedback
  | Step.generate_images => st.image_feedback
  | Step.refine_images => st.image_feedback
  | _ => []

/-- Modelled from the spec: a refinement call appends its feedback to the
step's feedback history before the collaborator is invoked
(spec section 4.2); calls without feedback, and steps without a history,
leave every history unchanged. -/
def appendFeedback (st : WorkflowState) (step : Step) (input : StepInput) : WorkflowState :=
  match input with
  | StepInput.feedback txt =>
    match step with
    | Step.analyze => { st with analysis_feedback := st.analysis_feedback ++ [txt] }
    | Step.generate_scripts => { st with script_feedback := st.script_feedback ++ [txt] }
    | Step.refine_script =>
        { st with script_refinement_feedback := st.script_refinement_feedback ++ [txt] }
    | Step.generate_images => { st with image_feedback := st.image_feedback ++ [txt] }
    | Step.refine_images => { st with image_feedback := st.image_feedback ++ [txt] }
    | _ => st
  | _ => st

/-- Modelled from the spec: the per-step executor bodies (spec sections 4.2
and 6).  Each calls at most one external collaborator and returns the state
with the fields the step owns patched (and `error` cleared, spec section 3:
error is cleared on the next successful step), or a typed failure.
`generate_scripts` additionally performs the cascade invalidation of spec
section 4.3: it clears the selection and every field owned by steps
downstream of `select_script`.  The executor never touches `current_step`
or `iteration_count` (spec section 4.2: that is the orchestrator's job). -/
def execute (env : CollabEnv) (st : WorkflowState) (step : Step) (input : StepInput) :
    Except WorkflowError WorkflowState :=
  match step with
  | Step.scrape =>
    match input with
    | StepInput.scrapeUrl u =>
      match env.scrapeProduct u with
      | Except.ok d => Except.ok { st with url := some u, product_data := some d, error := none }
      | Except.error m => Except.error (WorkflowError.collaboratorFailure "scrapeProduct" m)
    | _ => Except.error (WorkflowError.validationError "scrape requires a url")
  | Step.analyze =>
    match st.product_data with
    | some pd =>
      match env.analyzeProduct pd st.analysis_feedback input.feedbackText with
      | Except.ok a => Except.ok { st with analysis := some a, error := none }
      | Except.error m => Except.error (WorkflowError.collaboratorFailure "analyzeProduct" m)
    | none => Except.error (WorkflowError.stepNotReady Step.analyze [Field.product_data])
  | Step.generate_scripts =>
    match st.product_data, st.analysis with
    | some pd, some a =>
      match env.generateScripts pd a st.script_feedback input.feedbackText with
      | Except.ok xs =>
        Except.ok { st with
          scripts := some xs,
          selected_script := none,
          selected_script_index := none,
          generated_images := none,
          audio_url := none,
          available_avatars := none,
          selected_avatar_id := none,
          video_url := none,
          error := none }
      | Except.error m => Except.error (WorkflowError.collaboratorFailure "generateScripts" m)
    | _, _ =>
      Except.error (WorkflowError.stepNotReady Step.generate_scripts (missingFields st Step.generate_scripts))
  | Step.select_script =>
    match input with
    | StepInput.scriptIndex i =>
      match st.scripts with
      | some xs =>
        if i < xs.length then
          Except.ok { st with
            selected_script_index := some i,
            selected_script := some (xs.getD i ""),
            error := none }
        else Except.error (WorkflowError.validationError "script index out of range")
      | none => Except.error (WorkflowError.stepNotReady Step.select_script [Field.scripts])
    | _ => Except.error (WorkflowError.validationError "select_script requires an index")
  | Step.refine_script =>
    match input with
    | StepInput.feedback f =>
      match st.selected_script with
      | some sc =>
        match env.refineScript sc f with
        | Except.ok sc2 => Except.ok { st with selected_script := some sc2, error := none }
        | Except.error m => Except.error (WorkflowError.collaboratorFailure "refineScript" m)
      | none => Except.error (WorkflowError.stepNotReady Step.refine_script [Field.selected_script])
    | _ => Except.error (WorkflowError.validationError "refine_script requires feedback")
  | Step.generate_images =>
    match st.selected_script with
    | some sc =>
      match env.generateImages sc (st.product_data.getD "") input.feedbackText with
      | Except.ok xs => Except.ok { st with generated_images := some xs, error := none }
      | Except.error m => Except.error (WorkflowError.collaboratorFailure "generateImages" m)
    | none => Except.error (WorkflowError.stepNotReady Step.generate_images [Field.selected_script])
  | Step.refine_images =>
    match st.selected_script with
    | some sc =>
      match env.generateImages sc (st.product_data.getD "") input.feedbackText with
      | Except.ok xs => Except.ok { st with generated_images := some xs, error := none }
      | Except.error m => Except.error (WorkflowError.collaboratorFailure "generateImages" m)
    | none => Except.error (WorkflowError.stepNotReady Step.refine_images [Field.selected_script])
  | Step.generate_audio =>
    match st.selected_script with
    | some sc =>
      match env.synthesizeAudio sc with
      | Except.ok au => Except.ok { st with audio_url := some au, error := none }
      | Except.error m => Except.error (WorkflowError.collaboratorFailure "synthesizeAudio" m)
    | none => Except.error (WorkflowError.stepNotReady Step.generate_audio [Field.selected_script])
  | Step.select_avatar =>
    match input with
    | StepInput.avatarId aid =>
      match env.listAvatars () with
      | Except.ok avs =>
        Except.ok { st with
          available_avatars := some avs,
          selected_avatar_id := some aid,
          error := none }
      | Except.error m => Except.error (WorkflowError.collaboratorFailure "listAvatars" m)
    | _ => Except.error (WorkflowError.validationError "select_avatar requires an avatar id")
  | Step.generate_video =>
    match st.audio_url, st.selected_avatar_id with
    | some au, some av =>
      match env.renderVideo au av with
      | Except.ok v => Except.ok { st with video_url := some v, error := none }
      | Except.error m => Except.error (WorkflowError.collaboratorFailure "renderVideo" m)
    | _, _ =>
      Except.error (WorkflowError.stepNotReady Step.generate_video (missingFields st Step.generate_video))

/-- Modelled from the spec: the orchestrator's `runStep` (spec section 4.5).
It checks the step's prerequisite (failing with `StepNotReady` and no state
change when unmet), appends any feedback to the step's history before the
executor is invoked, then runs the executor.  On success it sets
`current_step` to the executed step and increments that step's iteration
count; on collaborator failure it persists the `error` field (on the state
that already carries the appended feedback) and leaves `current_step`,
payload fields and iteration counts unchanged. -/
def runStep (env : CollabEnv) (st : WorkflowState) (step : Step) (input : StepInput) :
    StepResult :=
  if prereqOk st step then
    match execute env (appendFeedback st step input) step input with
    | Except.ok st2 =>
      StepResult.ok { st2 with
        current_step := step,
        iteration_count := fun t => if t = step then st2.iteration_count t + 1 else st2.iteration_count t }
    | Except.error e =>
      match e with
      | WorkflowError.collaboratorFailure c m =>
        StepResult.err (WorkflowError.collaboratorFailure c m)
          { appendFeedback st step input with error := some m }
      | e => StepResult.err e (appendFeedback st step input)
  else StepResult.err (WorkflowError.stepNotReady step (missingFields st step)) st

/-- Whether the first character list starts the second one. -/
def startsWithList : List Char → List Char → Bool
  | [], _ => true
  | _ :: _, [] => false
  | a :: as, b :: bs => a = b && startsWithList as bs

/-- Whether the first character list occurs contiguously in the second. -/
def subrunAt : List Char → List Char → Bool
  | needle, [] => needle.isEmpty
  | needle, c :: rest => startsWithList needle (c :: rest) || subrunAt needle rest

/-- Whether `needle` occurs as a contiguous substring of `hay`. -/
def containsSubstr (hay needle : String) : Bool :=
  subrunAt needle.data hay.data

/-- Modelled from the spec: the fixed step vocabulary used by the keyword
matcher of the navigation resolver (spec section 4.3, step 2: step names and
their common synonyms), in registered (pipeline) order. -/
def stepVocabulary : List (Step × List String) :=
  [ (Step.scrape, ["scrape"]),
    (Step.analyze, ["analyze", "analysis"]),
    (Step.generate_scripts, ["generate_scripts", "script generation"]),
    (Step.select_script, ["select_script", "select script"]),
    (Step.refine_script, ["refine_script", "refine script"]),
    (Step.generate_images, ["generate_images", "image generation"]),
    (Step.refine_images, ["refine_images", "refine images"]),
    (Step.generate_audio, ["generate_audio", "audio"]),
    (Step.select_avatar, ["select_avatar", "avatar"]),
    (Step.generate_video, ["generate_video", "video"]) ]

/-- Modelled from the spec: keyword matching of free navigation text against
the fixed step vocabulary, first registered match wins (spec sections 4.3
and 4.4: deterministic, stable ordering). -/
def matchStepKeyword (text : String) : Option Step :=
  (stepVocabulary.find? (fun p => p.2.any (fun kw => containsSubstr text kw))).map (fun p => p.1)

/-- A navigation request: either an explicit target step id, or free text to
be keyword-matched (spec section 4.3, algorithm steps 1 and 2). -/
inductive NavIntent where
  | explicitTarget (s : Step)
  | freeText (t : String)
deriving DecidableEq, Repr

/-- The target step a navigation request resolves to, if any. -/
def resolveTarget : NavIntent → Option Step
  | NavIntent.explicitTarget s => some s
  | NavIntent.freeText t => matchStepKeyword t

/-- Modelled from the spec: the navigation resolver (spec section 4.3).
Resolves the request to a target step (failing with `AmbiguousNavigation`
when no step name is recognized), checks the target's prerequisite against
the current state (failing with `PrerequisiteNotMet` carrying the target and
the missing fields), and on success sets `current_step` to the target and
clears `navigation_intent`, altering no payload field.  Navigation takes no
collaborator environment: no collaborator can be invoked on this path. -/
def navigate (st : WorkflowState) (intent : NavIntent) : Except WorkflowError WorkflowState :=
  match resolveTarget intent with
  | none =>
    match intent with
    | NavIntent.freeText t => Except.error (WorkflowError.ambiguousNavigation t)
    | NavIntent.explicitTarget _ => Except.error (WorkflowError.ambiguousNavigation "")
  | some target =>
    if prereqOk st target then
      Except.ok { st with current_step := target, navigation_intent := none }
    else Except.error (WorkflowError.prerequisiteNotMet target (missingFields st target))

/-- Modelled from the spec: whether a chat message matches the navigation
pattern of the intent router (spec section 4.4, case (a): a
"go to/back to step" phrase). -/
def isNavMessage (msg : String) : Bool :=
  containsSubstr msg "go to" || containsSubstr msg "back to" || containsSubstr msg "navigate"

/-- Appending the incoming user message to the append-only chat history
(spec section 3). -/
def appendUserMessage (st : WorkflowState) (msg : String) : WorkflowState :=
  { st with messages := st.messages ++ [{ role := "user", content := msg }] }

/-- Modelled from the spec: the chat operation (spec sections 4.4 and 4.5).
The intent router sends navigation phrases to the navigation resolver and
treats any other message as feedback for the executor of `current_step`;
the user message is appended to the chat history first. -/
def chat (env : CollabEnv) (st : WorkflowState) (msg : String) : StepResult :=
  if isNavMessage msg then
    match navigate (appendUserMessage st msg) (NavIntent.freeText msg) with
    | Except.ok st1 => StepResult.ok st1
    | Except.error e => StepResult.err e (appendUserMessage st msg)
  else
    runStep env (appendUserMessage st msg) (appendUserMessage st msg).current_step
      (StepInput.feedback msg)

/-- The state persisted after an operation, for both outcomes: the new state
on success, and the state as stored on failure (spec section 7). -/
def StepResult.state : StepResult → WorkflowState
  | StepResult.ok st => st
  | StepResult.err _ st => st

/-- The error surfaced by an operation, if any. -/
def StepResult.errorOf : StepResult → Option WorkflowError
  | StepResult.ok _ => none
  | StepResult.err e _ => some e

/-- Two states agree on every per-step payload field (spec section 3):
the fields owned by step executors, excluding bookkeeping
(`current_step`, `navigation_intent`, `messages`, feedback histories,
`iteration_count`, `error`). -/
def payloadEq (a b : WorkflowState) : Prop :=
  a.url = b.url ∧
  a.product_data = b.product_data ∧
  a.analysis = b.analysis ∧
  a.scripts = b.scripts ∧
  a.selected_script_index = b.selected_script_index ∧
  a.selected_script = b.selected_script ∧
  a.generated_images = b.generated_images ∧
  a.audio_url = b.audio_url ∧
  a.available_avatars = b.available_avatars ∧
  a.selected_avatar_id = b.selected_avatar_id ∧
  a.video_url = b.video_url

instance (a b : WorkflowState) : Decidable (payloadEq a b) := by
  unfold payloadEq; infer_instance

/-- The states a single session can reach through the public operations of
the orchestrator (spec section 4.5), starting from the lazily initialised
state: successful and failed `runStep` calls, successful `navigate` calls
(failed navigation persists nothing), and `chat` calls.  `getState` does not
change state.  Each transition may observe arbitrary collaborator
behaviour. -/
inductive Reachable : WorkflowState → Prop where
  | init : Reachable initialState
  | runOk (env : CollabEnv) (st : WorkflowState) (step : Step) (input : StepInput)
      (st' : WorkflowState) :
      Reachable st → runStep env st step input = StepResult.ok st' → Reachable st'
  | runErr (env : CollabEnv) (st : WorkflowState) (step : Step) (input : StepInput)
      (e : WorkflowError) (st' : WorkflowState) :
      Reachable st → runStep env st step input = StepResult.err e st' → Reachable st'
  | navOk (st : WorkflowState) (intent : NavIntent) (st' : WorkflowState) :
      Reachable st → navigate st intent = Except.ok st' → Reachable st'
  | chatOk (env : CollabEnv) (st : WorkflowState) (msg : String) (st' : WorkflowState) :
      Reachable st → chat env st msg = StepResult.ok st' → Reachable st'
  | chatErr (env : CollabEnv) (st : WorkflowState) (msg : String) (e : WorkflowError)
      (st' : WorkflowState) :
      Reachable st → chat env st msg = StepResult.err e st' → Reachable st'

/-- One entry of the session store: the session's state together with the
in-flight marker of its serialization discipline (spec section 5: one
logical owner per session). -/
structure SessionEntry where
  state : WorkflowState
  busy : Bool

/-- The keyed session store: one optional entry per session id
(spec sections 4.1 and 9: keyed store with per-key serialization). -/
def Store : Type := String → Option SessionEntry

/-- Modelled from the spec: entering a `runStep`/`chat` call on a session
(spec section 5).  An unknown session fails with `NotFound`; a session with
a call in flight fails with `SessionBusy` and the store is unchanged;
otherwise the session is marked in flight.  Only this session's entry is
touched: different sessions are fully independent. -/
def acquireSession (store : Store) (sid : String) : Except WorkflowError Store :=
  match store sid with
  | none => Except.error WorkflowError.notFound
  | some entry =>
    if entry.busy then Except.error WorkflowError.sessionBusy
    else Except.ok (fun k => if k = sid then some { entry with busy := true } else store k)

/-- Modelled from the spec: completing an in-flight call on a session
atomically publishes the new state and clears the in-flight marker
(spec section 5). -/
def releaseSession (store : Store) (sid : String) (st : WorkflowState) : Store :=
  fun k => if k = sid then some { state := st, busy := false } else store k

/-- The stateful part of the `WorkflowAPI` frontend client
(`src/unnamed/part_000`, line 54): the stored thread id. -/
structure WorkflowAPI where
  threadId : Option String
deriving DecidableEq, Repr

/-- The public methods of the `WorkflowAPI` client (`src/unnamed/part_000`). -/
inductive APIMethod where
  | scrape
  | analyze
  | generateScripts
  | selectScript
  | refineScript
  | generateImages
  | refineImages
  | generateAudio
  | getAvatars
  | selectAvatar
  | generateVideo
  | navigate
  | chat
  | getState
deriving DecidableEq, Repr

/-- Which client methods guard on a stored thread id: every method except
`scrape` and `chat` starts with
`if (!this.threadId) throw new Error('No thread_id available')`
(`src/unnamed/part_000`). -/
def requiresThreadId : APIMethod → Bool
  | APIMethod.scrape => false
  | APIMethod.chat => false
  | _ => true

/-- The endpoint suffix each client method posts to or gets from
(`src/unnamed/part_000`). -/
def endpointOf : APIMethod → String
  | APIMethod.scrape => "scrape"
  | APIMethod.analyze => "analyze"
  | APIMethod.generateScripts => "generate_scripts"
  | APIMethod.selectScript => "select_script"
  | APIMethod.refineScript => "refine_script"
  | APIMethod.generateImages => "generate_images"
  | APIMethod.refineImages => "refine_images"
  | APIMethod.generateAudio => "generate_audio"
  | APIMethod.getAvatars => "avatars"
  | APIMethod.selectAvatar => "select_avatar"
  | APIMethod.generateVideo => "generate_video"
  | APIMethod.navigate => "navigate"
  | APIMethod.chat => "chat"
  | APIMethod.getState => "state"

/-- One HTTP request issued by the client: the endpoint and the thread id it
sent along. -/
structure HttpRequest where
  endpoint : String
  threadIdSent : Option String
deriving DecidableEq, Repr

/-- One call of a `WorkflowAPI` client method (`src/unnamed/part_000`),
parameterised by the `thread_id` the server's response carries (`none` for a
response without one).  Returns the list of HTTP requests issued together
with either the updated client or the thrown error message.  Methods that
guard on the thread id throw before issuing any request; `scrape` and
`chat` issue their request with the stored (possibly null) thread id and
store the response's thread id when present
(`if (response.data.thread_id) this.threadId = response.data.thread_id`). -/
def callMethod (client : WorkflowAPI) (m : APIMethod) (respThreadId : Option String) :
    List HttpRequest × Except String WorkflowAPI :=
  match client.threadId, requiresThreadId m with
  | none, true => ([], Except.error "No thread_id available")
  | tid, _ =>
    let req : HttpRequest := { endpoint := endpointOf m, threadIdSent := tid }
    let client' : WorkflowAPI :=
      if m = APIMethod.scrape ∨ m = APIMethod.chat then
        match respThreadId with
        | some t => { client with threadId := some t }
        | none => client
      else client
    ([req], Except.ok client')

/-- The tab indices the `ScriptSelection` component
(`src/frontend/src/components/ScriptSelection.tsx`) can hold for a given
`scripts` prop: `useState(0)` starts at 0, and the only `setActiveTab`
calls come from the tab buttons rendered per index of `scripts`. -/
inductive TabReachable : List String → Nat → Prop where
  | initial (scripts : List String) : TabReachable scripts 0
  | click (scripts : List String) (idx : Nat) :
      idx < scripts.length → TabReachable scripts idx

/-- The pair the `ScriptSelection` component passes to `onSelect` when the
select button is clicked: `onSelect(scripts[activeTab], activeTab)`
(`ScriptSelection.tsx`, line 57); an out-of-range access yields no script
(JavaScript `undefined`). -/
def offeredSelection (scripts : List String) (activeTab : Nat) : Option String × Nat :=
  (scripts.get? activeTab, activeTab)

/-- A collaborator environment in which every external call succeeds with a
fixed value, used to evaluate the model on concrete inputs. -/
def envOk : CollabEnv where
  scrapeProduct := fun u => Except.ok (String.append "data:" u)
  analyzeProduct := fun pd _ _ => Except.ok (String.append "analysis:" pd)
  generateScripts := fun _ _ _ _ => Except.ok ["s1", "s2", "s3"]
  refineScript := fun sc f => Except.ok (String.append sc f)
  generateImages := fun _ _ _ => Except.ok ["img1", "img2"]
  synthesizeAudio := fun _ => Except.ok "audio.mp3"
  listAvatars := fun _ => Except.ok ["av1", "av2"]
  renderVideo := fun _ _ => Except.ok "video.mp4"

/-- A collaborator environment in which every external call fails. -/
def envFail : CollabEnv where
  scrapeProduct := fun _ => Except.error "down"
  analyzeProduct := fun _ _ _ => Except.error "down"
  generateScripts := fun _ _ _ _ => Except.error "down"
  refineScript := fun _ _ => Except.error "down"
  generateImages := fun _ _ _ => Except.error "down"
  synthesizeAudio := fun _ => Except.error "down"
  listAvatars := fun _ => Except.error "down"
  renderVideo := fun _ _ => Except.error "down"

/-- A concrete mid-pipeline state: scripts generated and one selected,
used to evaluate the model on concrete inputs. -/
def stMid : WorkflowState :=
  { initialState with
    current_step := Step.select_script,
    url := some "https://shop.example/widget",
    product_data := some "pd",
    analysis := some "an",
    scripts := some ["s1", "s2", "s3"],
    selected_script_index := some 1,
    selected_script := some "s2",
    iteration_count := fun t =>
      match t with
      | Step.scrape => 1
      | Step.analyze => 1
      | Step.generate_scripts => 1
      | _ => 0 }

/-- A concrete state in which `refine_script` has already executed once,
used to evaluate refinement behaviour on concrete inputs. -/
def stRefined : WorkflowState :=
  { stMid with
    current_step := Step.refine_script,
    selected_script := some "s2-v1",
    script_refinement_feedback := ["punchier"],
    iteration_count := fun t =>
      match t with
      | Step.scrape => 1
      | Step.analyze => 1
      | Step.generate_scripts => 1
      | Step.select_script => 1
      | Step.refine_script => 1
      | _ => 0 }

/-- A concrete idle session entry, used to evaluate the store model. -/
def sessionEntryA : SessionEntry where
  state := initialState
  busy := false

/-- A concrete two-session store with no call in flight, used to evaluate
the store model. -/
def storeAB : Store :=
  fun k => if k = "A" then some sessionEntryA else if k = "B" then some sessionEntryA else none

theorem appendFeedback_payloadEq (st : WorkflowState) (step : Step) (input : StepInput) :
    payloadEq st (appendFeedback st step input) := by
  cases input <;> cases step <;> simp [appendFeedback, payloadEq]

theorem appendFeedback_misc (st : WorkflowState) (step : Step) (input : StepInput) :
    (appendFeedback st step input).current_step = st.current_step ∧
    (appendFeedback st step input).iteration_count = st.iteration_count ∧
    (appendFeedback st step input).error = st.error ∧
    (appendFeedback st step input).messages = st.messages ∧
    (appendFeedback st step input).product_data = st.product_data ∧
    (appendFeedback st step input).analysis = st.analysis ∧
    (appendFeedback st step input).scripts = st.scripts ∧
    (appendFeedback st step input).selected_script = st.selected_script ∧
    (appendFeedback st step input).generated_images = st.generated_images ∧
    (appendFeedback st step input).audio_url = st.audio_url ∧
    (appendFeedback st step input).selected_avatar_id = st.selected_avatar_id := by
  cases input <;> cases step <;> simp [appendFeedback]

theorem appendFeedback_history (st : WorkflowState) (step : Step) (txt : String)
    (h : revisable step = true) :
    historyOf (appendFeedback st step (StepInput.feedback txt)) step =
      historyOf st step ++ [txt] := by
  cases step <;> simp_all [revisable, appendFeedback, historyOf]

/-- Fields a step's prerequisite reads are determined by the payload: two
payload-equal states have the same missing fields for every step. -/
theorem missingFields_congr (a b : WorkflowState) (h : payloadEq a b) (step : Step) :
    missingFields a step = missingFields b step := by
  obtain ⟨h1, h2, h3, h4, h5, h6, h7, h8, h9, h10, h11⟩ := h
  cases step <;> simp [missingFields, requiredFields, fieldSet, h2, h3, h4, h6, h7, h8, h10]

theorem prereqOk_congr (a b : WorkflowState) (h : payloadEq a b) (step : Step) :
    prereqOk a step = prereqOk b step := by
  simp [prereqOk, missingFields_congr a b h step]

/-- Inversion of a successful executor call: the executor only patches the
payload fields it owns, clears `error`, leaves all bookkeeping untouched,
and leaves its own prerequisite fields set. -/
theorem execute_ok_inv (env : CollabEnv) (st : WorkflowState) (step : Step) (input : StepInput)
    (st2 : WorkflowState) (hpre : prereqOk st step = true)
    (h : execute env st step input = Except.ok st2) :
    st2.current_step = st.current_step ∧
    st2.navigation_intent = st.navigation_intent ∧
    st2.messages = st.messages ∧
    st2.iteration_count = st.iteration_count ∧
    st2.analysis_feedback = st.analysis_feedback ∧
    st2.script_feedback = st.script_feedback ∧
    st2.script_refinement_feedback = st.script_refinement_feedback ∧
    st2.image_feedback = st.image_feedback ∧
    st2.error = none ∧
    prereqOk st2 step = true := by
  cases step <;>
    (simp only [execute] at h
     repeat' split at h
     all_goals cases h
     all_goals simp_all [prereqOk, missingFields, requiredFields, fieldSet])

theorem payloadEq_refl (st : WorkflowState) : payloadEq st st := by
  simp [payloadEq]

theorem payloadEq_trans (a b c : WorkflowState) (h1 : payloadEq a b) (h2 : payloadEq b c) :
    payloadEq a c := by
  obtain ⟨x1, x2, x3, x4, x5, x6, x7, x8, x9, x10, x11⟩ := h1
  obtain ⟨y1, y2, y3, y4, y5, y6, y7, y8, y9, y10, y11⟩ := h2
  exact ⟨x1.trans y1, x2.trans y2, x3.trans y3, x4.trans y4, x5.trans y5, x6.trans y6,
    x7.trans y7, x8.trans y8, x9.trans y9, x10.trans y10, x11.trans y11⟩

/-- Inversion of a successful `runStep`: the new state points at the executed
step, that step's prerequisite holds in it, exactly its iteration count has
grown by one, and the error field is cleared. -/
theorem runStep_ok_inv (env : CollabEnv) (st : WorkflowState) (step : Step) (input : StepInput)
    (st' : WorkflowState) (h : runStep env st step input = StepResult.ok st') :
    st'.current_step = step ∧
    prereqOk st' step = true ∧
    st'.iteration_count step = st.iteration_count step + 1 ∧
    (∀ t, t ≠ step → st'.iteration_count t = st.iteration_count t) ∧
    st'.error = none := by
  unfold runStep at h
  split at h
  case isFalse => cases h
  case isTrue hpre =>
    split at h
    case h_2 e heq =>
      split at h <;> cases h
    case h_1 st2 heq =>
      have hpre1 : prereqOk (appendFeedback st step input) step = true := by
        rw [← prereqOk_congr st (appendFeedback st step input)
          (appendFeedback_payloadEq st step input) step]
        exact hpre
      obtain ⟨e1, e2, e3, e4, e5, e6, e7, e8, e9, e10⟩ :=
        execute_ok_inv env (appendFeedback st step input) step input st2 hpre1 heq
      obtain ⟨a1, a2, a3, a4, a5, a6, a7, a8, a9, a10, a11⟩ :=
        appendFeedback_misc st step input
      cases h
      refine ⟨rfl, ?_, ?_, ?_, e9⟩
      · rw [show prereqOk { st2 with
            current_step := step,
            iteration_count := fun t => if t = step then st2.iteration_count t + 1
              else st2.iteration_count t } step = prereqOk st2 step from ?_]
        · exact e10
        · exact prereqOk_congr _ st2 (by simp [payloadEq]) step
      · simp [e4, a2]
      · intro t ht
        simp [ht, e4, a2]

/-- Inversion of a failed `runStep`: the persisted state keeps the same
`current_step`, the same payload fields and the same iteration counts as
the pre-call state. -/
theorem runStep_err_inv (env : CollabEnv) (st : WorkflowState) (step : Step) (input : StepInput)
    (e : WorkflowError) (st' : WorkflowState)
    (h : runStep env st step input = StepResult.err e st') :
    st'.current_step = st.current_step ∧
    payloadEq st st' ∧
    st'.iteration_count = st.iteration_count := by
  unfold runStep at h
  split at h
  case isFalse => cases h; exact ⟨rfl, payloadEq_refl st, rfl⟩
  case isTrue hpre =>
    obtain ⟨a1, a2, a3, a4, a5, a6, a7, a8, a9, a10, a11⟩ := appendFeedback_misc st step input
    have apay := appendFeedback_payloadEq st step input
    split at h
    case h_1 st2 heq => cases h
    case h_2 e0 heq =>
      split at h <;> cases h
      case h_1 c m =>
        refine ⟨a1, payloadEq_trans st (appendFeedback st step input) _ apay ?_, a2⟩
        simp [payloadEq]
      case h_2 hne =>
        exact ⟨a1, apay, a2⟩

/-- Inversion of a `runStep` that failed with a collaborator failure: the
failure message is recorded in the persisted `error` field, and the step's
feedback history (when the call carried feedback for a revisable step) has
the feedback appended. -/
theorem runStep_collab_err_inv (env : CollabEnv) (st : WorkflowState) (step : Step)
    (input : StepInput) (c m : String) (st' : WorkflowState)
    (h : runStep env st step input = StepResult.err (WorkflowError.collaboratorFailure c m) st') :
    st'.error = some m ∧
    st' = { appendFeedback st step input with error := some m } := by
  unfold runStep at h
  split at h
  case isFalse => cases h
  case isTrue hpre =>
    split at h
    case h_1 st2 heq => cases h
    case h_2 e0 heq =>
      split at h
      case h_1 c0 m0 =>
        injection h with h1 h2
        injection h1 with h1a h1b
        subst h1a; subst h1b; subst h2
        exact ⟨rfl, rfl⟩
      case h_2 hne =>
        injection h with h1 h2
        exact absurd h1 (hne c m)

theorem payloadEq_symm (a b : WorkflowState) (h : payloadEq a b) : payloadEq b a := by
  obtain ⟨x1, x2, x3, x4, x5, x6, x7, x8, x9, x10, x11⟩ := h
  exact ⟨x1.symm, x2.symm, x3.symm, x4.symm, x5.symm, x6.symm, x7.symm, x8.symm, x9.symm,
    x10.symm, x11.symm⟩

/-- Inversion of a successful navigation: the request resolved to a target
whose prerequisite held, and the new state differs only in `current_step`
(set to the target) and `navigation_intent` (cleared). -/
theorem navigate_ok_inv (st : WorkflowState) (intent : NavIntent) (st' : WorkflowState)
    (h : navigate st intent = Except.ok st') :
    ∃ target, resolveTarget intent = some target ∧ prereqOk st target = true ∧
      st' = { st with current_step := target, navigation_intent := none } := by
  unfold navigate at h
  split at h
  case h_1 => split at h <;> cases h
  case h_2 target heq =>
    split at h
    case isTrue hp => cases h; exact ⟨target, heq, hp, rfl⟩
    case isFalse => cases h

/-- A successful explicit-target navigation, in closed form. -/
theorem navigate_explicit (st : WorkflowState) (target : Step)
    (hpre : prereqOk st target = true) :
    navigate st (NavIntent.explicitTarget target) =
      Except.ok { st with current_step := target, navigation_intent := none } := by
  simp [navigate, resolveTarget, hpre]

theorem appendUserMessage_payloadEq (st : WorkflowState) (msg : String) :
    payloadEq st (appendUserMessage st msg) := by
  simp [appendUserMessage, payloadEq]

theorem historyOf_congr (a b : WorkflowState)
    (h1 : a.analysis_feedback = b.analysis_feedback)
    (h2 : a.script_feedback = b.script_feedback)
    (h3 : a.script_refinement_feedback = b.script_refinement_feedback)
    (h4 : a.image_feedback = b.image_feedback) (step : Step) :
    historyOf a step = historyOf b step := by
  cases step <;> simp [historyOf, h1, h2, h3, h4]

/-- C2: for every session, after every public operation of the orchestrator
completes — a successful or failed `runStep`, a `navigate`, a `chat`
(`getState` changes nothing and failed navigation persists nothing) — all
prerequisite fields of the step named by `current_step` are non-null:
every reachable session state satisfies `prereqOk st st.current_step`. -/
theorem C2_current_step_prereq_invariant (st : WorkflowState) (h : Reachable st) :
    prereqOk st st.current_step = true := by
  induction h with
  | init => rfl
  | runOk env st step input st' hr hs ih =>
    obtain ⟨c1, c2, _, _, _⟩ := runStep_ok_inv env st step input st' hs
    rw [c1]; exact c2
  | runErr env st step input e st' hr hs ih =>
    obtain ⟨c1, c2, _⟩ := runStep_err_inv env st step input e st' hs
    rw [c1, prereqOk_congr st' st (payloadEq_symm st st' c2) st.current_step]
    exact ih
  | navOk st intent st' hr hs ih =>
    obtain ⟨target, _, hp, hval⟩ := navigate_ok_inv st intent st' hs
    subst hval
    rw [show ({ st with current_step := target, navigation_intent := none } :
      WorkflowState).current_step = target from rfl]
    rw [prereqOk_congr _ st (by simp [payloadEq]) target]
    exact hp
  | chatOk env st msg st' hr hs ih =>
    unfold chat at hs
    split at hs
    · split at hs
      case h_1 st1 heq =>
        cases hs
        obtain ⟨target, _, hp, hval⟩ := navigate_ok_inv _ _ _ heq
        have h2 : st'.current_step = target := by rw [hval]
        have h3 : payloadEq st' (appendUserMessage st msg) := by
          rw [hval]; simp [payloadEq]
        rw [h2, prereqOk_congr st' (appendUserMessage st msg) h3 target]
        exact hp
      case h_2 => cases hs
    · obtain ⟨c1, c2, _, _, _⟩ :=
        runStep_ok_inv env (appendUserMessage st msg) _ _ st' hs
      rw [c1]; exact c2
  | chatErr env st msg e st' hr hs ih =>
    unfold chat at hs
    split at hs
    · split at hs
      case h_1 => cases hs
      case h_2 e0 heq =>
        cases hs
        rw [show (appendUserMessage st msg).current_step = st.current_step from rfl]
        rw [prereqOk_congr (appendUserMessage st msg) st
          (payloadEq_symm st _ (appendUserMessage_payloadEq st msg)) st.current_step]
        exact ih
    · obtain ⟨c1, c2, _⟩ := runStep_err_inv env (appendUserMessage st msg) _ _ e st' hs
      rw [c1]
      rw [show (appendUserMessage st msg).current_step = st.current_step from rfl]
      rw [prereqOk_congr st' st (payloadEq_symm st st'
        (payloadEq_trans st (appendUserMessage st msg) st'
          (appendUserMessage_payloadEq st msg) c2)) st.current_step]
      exact ih

/-- Witness for C2: the invariant holds at the initial state of a fresh
session, reached by zero operations. -/
theorem C2_witness : prereqOk initialState initialState.current_step = true :=
  C2_current_step_prereq_invariant initialState Reachable.init

/-- C3: when a `runStep` call's executor fails on its collaborator call, the
failure is surfaced to the caller (the result is the `CollaboratorFailure`
error itself) and recorded in the persisted state's `error` field, while
`current_step`, every payload field and the iteration counts are unchanged
from the pre-call state, so re-issuing the same `runStep` is safe. -/
theorem C3_collaborator_failure_retry_safe (env : CollabEnv) (st : WorkflowState)
    (step : Step) (input : StepInput) (c m : String) (st' : WorkflowState)
    (h : runStep env st step input =
      StepResult.err (WorkflowError.collaboratorFailure c m) st') :
    st'.error = some m ∧
    st'.current_step = st.current_step ∧
    payloadEq st st' ∧
    st'.iteration_count = st.iteration_count := by
  obtain ⟨e1, _⟩ := runStep_collab_err_inv env st step input c m st' h
  obtain ⟨f1, f2, f3⟩ := runStep_err_inv env st step input _ st' h
  exact ⟨e1, f1, f2, f3⟩

/-- Witness for C3, at a concrete state whose `refine_script` collaborator
call fails: the error is recorded, and step pointer, payload and iteration
counts are untouched. -/
theorem C3_witness :
    ∃ st', runStep envFail stMid Step.refine_script (StepInput.feedback "shorter") =
        StepResult.err (WorkflowError.collaboratorFailure "refineScript" "down") st' ∧
      st'.error = some "down" ∧
      st'.current_step = stMid.current_step ∧
      payloadEq stMid st' ∧
      st'.iteration_count = stMid.iteration_count := by
  refine ⟨_, rfl, ?_⟩
  exact C3_collaborator_failure_retry_safe envFail stMid Step.refine_script
    (StepInput.feedback "shorter") "refineScript" "down" _ rfl

/-- C4: a single successful navigate sets `current_step` to the target,
clears `navigation_intent` and alters no payload field; hence navigating to
an already-satisfied step and back to the original step (whose prerequisite
the invariant guarantees), with nothing in between, restores `current_step`
and leaves every payload field identical. -/
theorem C4_navigation_round_trip (st : WorkflowState) (b : Step)
    (hb : prereqOk st b = true) (hc : prereqOk st st.current_step = true) :
    ∃ st1 st2,
      navigate st (NavIntent.explicitTarget b) = Except.ok st1 ∧
      st1.current_step = b ∧ st1.navigation_intent = none ∧ payloadEq st st1 ∧
      navigate st1 (NavIntent.explicitTarget st.current_step) = Except.ok st2 ∧
      st2.current_step = st.current_step ∧ st2.navigation_intent = none ∧
      payloadEq st st2 := by
  have hb1 : prereqOk { st with current_step := b, navigation_intent := none }
      st.current_step = true := by
    rw [prereqOk_congr _ st (by simp [payloadEq]) st.current_step]
    exact hc
  refine ⟨{ st with current_step := b, navigation_intent := none },
    { st with current_step := st.current_step, navigation_intent := none },
    navigate_explicit st b hb, rfl, rfl, by simp [payloadEq],
    ?_, rfl, rfl, by simp [payloadEq]⟩
  exact navigate_explicit _ st.current_step hb1

/-- Witness for C4, at a concrete mid-pipeline state: navigate back to
`analyze`, then forward to `select_script`. -/
theorem C4_witness :
    prereqOk stMid Step.analyze = true ∧
    prereqOk stMid stMid.current_step = true ∧
    (∃ st1 st2,
      navigate stMid (NavIntent.explicitTarget Step.analyze) = Except.ok st1 ∧
      st1.current_step = Step.analyze ∧ st1.navigation_intent = none ∧ payloadEq stMid st1 ∧
      navigate st1 (NavIntent.explicitTarget stMid.current_step) = Except.ok st2 ∧
      st2.current_step = stMid.current_step ∧ st2.navigation_intent = none ∧
      payloadEq stMid st2) :=
  ⟨by decide, by decide, C4_navigation_round_trip stMid Step.analyze (by decide) (by decide)⟩

/-- C5: a navigation request that resolves to a target step whose
prerequisite fields are not all set fails with `PrerequisiteNotMet` carrying
the target and the missing fields; `navigate` has no access to any
collaborator (it takes no `CollabEnv`), and the error result carries no
state to persist, so the session state is unchanged. -/
theorem C5_navigate_prerequisite_not_met (st : WorkflowState) (intent : NavIntent)
    (target : Step) (hres : resolveTarget intent = some target)
    (hmiss : prereqOk st target = false) :
    navigate st intent =
      Except.error (WorkflowError.prerequisiteNotMet target (missingFields st target)) ∧
    missingFields st target ≠ [] := by
  constructor
  · simp [navigate, hres, hmiss]
  · intro hnil
    simp [prereqOk, hnil] at hmiss

/-- Witness for C5, matching spec scenario 5: navigating to `select_avatar`
before audio exists fails with the missing `audio` field. -/
theorem C5_witness :
    resolveTarget (NavIntent.freeText "go to select_avatar") = some Step.select_avatar ∧
    prereqOk stMid Step.select_avatar = false ∧
    navigate stMid (NavIntent.freeText "go to select_avatar") =
      Except.error (WorkflowError.prerequisiteNotMet Step.select_avatar [Field.audio]) ∧
    missingFields stMid Step.select_avatar ≠ [] := by
  have h := C5_navigate_prerequisite_not_met stMid
    (NavIntent.freeText "go to select_avatar") Step.select_avatar (by decide) (by decide)
  have hm : missingFields stMid Step.select_avatar = [Field.audio] := by decide
  refine ⟨by decide, by decide, ?_, h.2⟩
  have h1 := h.1
  rw [hm] at h1
  exact h1

/-- C6: a successful `runStep(step)` increases `iteration_count[step]` by
exactly one (absent keys are modelled as count 0, so a first run sets it
to 1), and a failed `runStep(step)` leaves it unchanged. -/
theorem C6_iteration_count (env : CollabEnv) (st : WorkflowState) (step : Step)
    (input : StepInput) :
    (∀ st', runStep env st step input = StepResult.ok st' →
      st'.iteration_count step = st.iteration_count step + 1) ∧
    (∀ e st', runStep env st step input = StepResult.err e st' →
      st'.iteration_count step = st.iteration_count step) := by
  constructor
  · intro st' h
    exact (runStep_ok_inv env st step input st' h).2.2.1
  · intro e st' h
    rw [(runStep_err_inv env st step input e st' h).2.2]

/-- Witness for C6: a first successful `select_script` run sets that step's
count to 1, and a failed `refine_script` run leaves its count at 0. -/
theorem C6_witness :
    (∃ st', runStep envOk stMid Step.select_script (StepInput.scriptIndex 0) =
        StepResult.ok st' ∧
      st'.iteration_count Step.select_script =
        stMid.iteration_count Step.select_script + 1) ∧
    (∃ e st', runStep envFail stMid Step.refine_script (StepInput.feedback "x") =
        StepResult.err e st' ∧
      st'.iteration_count Step.refine_script = stMid.iteration_count Step.refine_script) := by
  constructor
  · exact ⟨_, rfl,
      (C6_iteration_count envOk stMid Step.select_script (StepInput.scriptIndex 0)).1 _ rfl⟩
  · exact ⟨_, _, rfl,
      (C6_iteration_count envFail stMid Step.refine_script (StepInput.feedback "x")).2 _ _ rfl⟩

/-- C1: in every state with a `selected_script` set, a successful re-run of
the `generate_scripts` executor clears `selected_script`,
`selected_script_index` and every payload field owned by steps downstream of
`select_script` — the refined script is the cleared `selected_script`, the
generated images, the audio reference, the avatar selection and the video
reference — while `scripts` is replaced by the new collaborator result. -/
theorem C1_generate_scripts_cascade (env : CollabEnv) (st : WorkflowState)
    (input : StepInput) (st' : WorkflowState)
    (hsel : st.selected_script.isSome = true)
    (h : runStep env st Step.generate_scripts input = StepResult.ok st') :
    st'.selected_script = none ∧
    st'.selected_script_index = none ∧
    st'.generated_images = none ∧
    st'.audio_url = none ∧
    st'.selected_avatar_id = none ∧
    st'.video_url = none ∧
    ∃ pd a xs, st.product_data = some pd ∧ st.analysis = some a ∧
      env.generateScripts pd a
        (appendFeedback st Step.generate_scripts input).script_feedback
        input.feedbackText = Except.ok xs ∧
      st'.scripts = some xs := by
  obtain ⟨a1, a2, a3, a4, a5, a6, a7, a8, a9, a10, a11⟩ :=
    appendFeedback_misc st Step.generate_scripts input
  unfold runStep at h
  split at h
  case isFalse => cases h
  case isTrue hpre =>
    split at h
    case h_2 e heq => split at h <;> cases h
    case h_1 st2 heq =>
      simp only [execute] at heq
      split at heq
      case h_2 => cases heq
      case h_1 pd a hpd ha =>
        split at heq
        case h_2 m hm => cases heq
        case h_1 xs hxs =>
          cases heq
          cases h
          refine ⟨rfl, rfl, rfl, rfl, rfl, rfl, pd, a, xs, ?_, ?_, hxs, rfl⟩
          · rw [← a5]; exact hpd
          · rw [← a6]; exact ha

/-- Witness for C1: regenerating scripts at a concrete state with a selected
script clears the selection and downstream fields and installs the new
scripts. -/
theorem C1_witness :
    stMid.selected_script.isSome = true ∧
    ∃ st', runStep envOk stMid Step.generate_scripts (StepInput.feedback "funnier") =
        StepResult.ok st' ∧
      st'.selected_script = none ∧
      st'.selected_script_index = none ∧
      st'.generated_images = none ∧
      st'.audio_url = none ∧
      st'.selected_avatar_id = none ∧
      st'.video_url = none ∧
      (∃ pd a xs, stMid.product_data = some pd ∧ stMid.analysis = some a ∧
        envOk.generateScripts pd a
          (appendFeedback stMid Step.generate_scripts (StepInput.feedback "funnier")).script_feedback
          (StepInput.feedback "funnier").feedbackText = Except.ok xs ∧
        st'.scripts = some xs) := by
  refine ⟨by decide, _, rfl, ?_⟩
  exact C1_generate_scripts_cascade envOk stMid (StepInput.feedback "funnier") _
    (by decide) rfl

/-- C7: a refinement call — feedback supplied to an already-executed
revisable step whose prerequisite holds, so the call reaches the
collaborator — appends exactly the supplied feedback text as one entry at
the end of that step's feedback history, whether the collaborator call
succeeds or fails (the feedback is recorded before invocation). -/
theorem C7_feedback_recorded (env : CollabEnv) (st : WorkflowState) (step : Step)
    (txt : String)
    (hrev : revisable step = true)
    (hrun : 1 ≤ st.iteration_count step)
    (hpre : prereqOk st step = true) :
    historyOf (StepResult.state (runStep env st step (StepInput.feedback txt))) step =
      historyOf st step ++ [txt] := by
  have hh := appendFeedback_history st step txt hrev
  have hpre1 : prereqOk (appendFeedback st step (StepInput.feedback txt)) step = true := by
    rw [← prereqOk_congr st _ (appendFeedback_payloadEq st step (StepInput.feedback txt)) step]
    exact hpre
  unfold runStep
  rw [if_pos hpre]
  cases hex : execute env (appendFeedback st step (StepInput.feedback txt)) step
      (StepInput.feedback txt) with
  | ok st2 =>
    obtain ⟨e1, e2, e3, e4, e5, e6, e7, e8, e9, e10⟩ :=
      execute_ok_inv env _ step _ st2 hpre1 hex
    simp only [StepResult.state]
    exact (historyOf_congr _ st2 rfl rfl rfl rfl step).trans
      ((historyOf_congr st2 _ e5 e6 e7 e8 step).trans hh)
  | error e =>
    cases e <;> simp only [StepResult.state] <;>
      exact (historyOf_congr _ (appendFeedback st step (StepInput.feedback txt))
        rfl rfl rfl rfl step).trans hh

/-- Witness for C7: a failed refinement of `refine_script` at a concrete
state with one prior execution still appends the feedback. -/
theorem C7_witness :
    revisable Step.refine_script = true ∧
    1 ≤ stRefined.iteration_count Step.refine_script ∧
    prereqOk stRefined Step.refine_script = true ∧
    historyOf (StepResult.state
        (runStep envFail stRefined Step.refine_script (StepInput.feedback "shorter")))
      Step.refine_script = historyOf stRefined Step.refine_script ++ ["shorter"] :=
  ⟨by decide, by decide, by decide,
    C7_feedback_recorded envFail stRefined Step.refine_script "shorter"
      (by decide) (by decide) (by decide)⟩

/-- C8 counterexample: the claim that the `ScriptSelection` UI only ever
offers a pair `(scripts[i], i)` with `i` a valid index of the displayed
scripts list fails at the concrete input `scripts = []`, `activeTab = 0`:
the initial tab 0 is reachable, yet 0 is not an index of the empty list and
the offered script is `undefined` (`none`). -/
theorem C8_counterexample :
    ¬ (∀ (scripts : List String) (tab : Nat), TabReachable scripts tab →
        ∃ h : tab < scripts.length,
          (offeredSelection scripts tab).1 = some (scripts.get ⟨tab, h⟩)) := by
  intro hclaim
  obtain ⟨hlt, _⟩ := hclaim [] 0 (TabReachable.initial [])
  exact absurd hlt (by decide)

/-- C8 (amended): whenever the `select_script` operation succeeds,
`selected_script_index` is a valid index into the current `scripts`
sequence and `selected_script` equals `scripts[selected_script_index]` at
the time of selection; and in the UI, for a nonempty displayed scripts
list, selection is only ever offered as the pair `(scripts[i], i)` for a
valid index `i` (with an empty list the component still offers the invalid
pair `(undefined, 0)`, see the counterexample). -/
theorem C8_selection_validity :
    (∀ (env : CollabEnv) (st : WorkflowState) (i : Nat) (st' : WorkflowState),
      runStep env st Step.select_script (StepInput.scriptIndex i) = StepResult.ok st' →
      ∃ xs, st'.scripts = some xs ∧ st'.selected_script_index = some i ∧
        i < xs.length ∧ st'.selected_script = xs.get? i) ∧
    (∀ (scripts : List String) (tab : Nat), scripts ≠ [] → TabReachable scripts tab →
      ∃ h : tab < scripts.length,
        (offeredSelection scripts tab).1 = some (scripts.get ⟨tab, h⟩)) := by
  constructor
  · intro env st i st' h
    unfold runStep at h
    split at h
    case isFalse => cases h
    case isTrue hpre =>
      split at h
      case h_2 e heq => split at h <;> cases h
      case h_1 st2 heq =>
        simp only [execute, appendFeedback] at heq
        split at heq
        case h_2 => cases heq
        case h_1 xs hxs =>
          split at heq
          case isTrue hlt =>
            cases heq
            cases h
            exact ⟨xs, hxs, rfl, hlt, by simp [List.getD_eq_get?, List.get?_eq_get, hlt]⟩
          case isFalse => cases heq
  · intro scripts tab hne htab
    cases htab with
    | initial =>
      have hlt : 0 < scripts.length := List.length_pos.mpr hne
      exact ⟨hlt, by simp [offeredSelection, List.get?_eq_get hlt]⟩
    | click idx hidx =>
      exact ⟨hidx, by simp [offeredSelection, List.get?_eq_get hidx]⟩

/-- Witness for C8 (amended): selecting index 1 at a concrete state with
three scripts, and the UI offer at tab 0 of a concrete two-script list. -/
theorem C8_witness :
    (∃ st', runStep envOk stMid Step.select_script (StepInput.scriptIndex 1) =
        StepResult.ok st' ∧
      ∃ xs, st'.scripts = some xs ∧ st'.selected_script_index = some 1 ∧
        1 < xs.length ∧ st'.selected_script = xs.get? 1) ∧
    (∃ h : 0 < (["a", "b"] : List String).length,
      (offeredSelection ["a", "b"] 0).1 = some ((["a", "b"] : List String).get ⟨0, h⟩)) := by
  constructor
  · exact ⟨_, rfl, C8_selection_validity.1 envOk stMid 1 _ rfl⟩
  · exact C8_selection_validity.2 ["a", "b"] 0 (by decide) (TabReachable.initial _)

/-- C9: while a call is in flight on a session (its entry is marked busy by
`acquireSession`), a new `runStep`/`chat` call on the same session is
rejected with `SessionBusy` and nothing is interleaved, while entries of
different sessions are untouched and a non-busy different session can still
be acquired independently. -/
theorem C9_session_serialization (store : Store) (sid : String) (entry : SessionEntry)
    (hs : store sid = some entry) (hb : entry.busy = false) :
    ∃ store', acquireSession store sid = Except.ok store' ∧
      acquireSession store' sid = Except.error WorkflowError.sessionBusy ∧
      (∀ sid', sid' ≠ sid → store' sid' = store sid') ∧
      (∀ sid' entry', sid' ≠ sid → store sid' = some entry' → entry'.busy = false →
        ∃ store'', acquireSession store' sid' = Except.ok store'') := by
  refine ⟨fun k => if k = sid then some { entry with busy := true } else store k,
    ?_, ?_, ?_, ?_⟩
  · simp [acquireSession, hs, hb]
  · simp [acquireSession]
  · intro sid' hne
    simp [hne]
  · intro sid' entry' hne hs' hb'
    refine ⟨fun k => if k = sid' then some { entry' with busy := true }
      else if k = sid then some { entry with busy := true } else store k, ?_⟩
    simp [acquireSession, hne, hs', hb']

/-- Witness for C9: acquiring session A of a concrete two-session store
blocks a second call on A with `SessionBusy` while session B is untouched
and still acquirable. -/
theorem C9_witness :
    storeAB "A" = some sessionEntryA ∧ sessionEntryA.busy = false ∧
    (∃ store', acquireSession storeAB "A" = Except.ok store' ∧
      acquireSession store' "A" = Except.error WorkflowError.sessionBusy ∧
      (∀ sid', sid' ≠ "A" → store' sid' = storeAB sid') ∧
      (∀ sid' entry', sid' ≠ "A" → storeAB sid' = some entry' → entry'.busy = false →
        ∃ store'', acquireSession store' sid' = Except.ok store'')) :=
  ⟨rfl, rfl, C9_session_serialization storeAB "A" sessionEntryA rfl rfl⟩

/-- C10: every `WorkflowAPI` client method other than `scrape` and `chat`
guards on the stored thread id and, when none is stored, throws
`Error('No thread_id available')` without issuing any HTTP request, while
`scrape` and `chat` may be called with no thread id, issue their request,
and store the response's `thread_id` for subsequent calls (which then send
that thread id). -/
theorem C10_client_thread_guard :
    (∀ m : APIMethod, m ≠ APIMethod.scrape → m ≠ APIMethod.chat →
      requiresThreadId m = true) ∧
    (∀ (m : APIMethod) (r : Option String), requiresThreadId m = true →
      callMethod { threadId := none } m r = ([], Except.error "No thread_id available")) ∧
    (∀ t : String,
      callMethod { threadId := none } APIMethod.scrape (some t) =
        ([{ endpoint := "scrape", threadIdSent := none }], Except.ok { threadId := some t }) ∧
      callMethod { threadId := none } APIMethod.chat (some t) =
        ([{ endpoint := "chat", threadIdSent := none }], Except.ok { threadId := some t })) ∧
    (∀ t : String,
      callMethod { threadId := some t } APIMethod.analyze none =
        ([{ endpoint := "analyze", threadIdSent := some t }],
          Except.ok { threadId := some t })) := by
  refine ⟨?_, ?_, ?_, ?_⟩
  · intro m h1 h2
    cases m <;> first
      | rfl
      | exact absurd rfl h1
      | exact absurd rfl h2
  · intro m r h
    simp [callMethod, h]
  · intro t
    exact ⟨rfl, rfl⟩
  · intro t
    rfl

/-- Witness for C10: `generateVideo` with no stored thread id throws without
issuing a request. -/
theorem C10_witness :
    requiresThreadId APIMethod.generateVideo = true ∧
    callMethod { threadId := none } APIMethod.generateVideo none =
      ([], Except.error "No thread_id available") :=
  ⟨rfl, C10_client_thread_guard.2.1 APIMethod.generateVideo none rfl⟩

end Vibelets
